import Mathlib

/-
Verification of the multi-provider streaming chat session manager of the
automation-lab repository. The definitions below are a shallow embedding of
the TypeScript source: src/App.tsx (handleSend), src/services/aiService.ts
(streamChat, streamGeminiChat, streamOpenAIChat, getGeminiClient,
getOpenAIClient, postToWebhook). External effects (network, localStorage,
object allocation, JSON.parse) are made explicit as parameters, emitted
events, or threaded state.
-/

namespace AutoLab

/-- Message roles, as in src/types.ts. -/
inductive Role where
  | user
  | model
  | system
  | workflow
deriving DecidableEq

/-- The runtime string of a role value (the TypeScript role field is a string). -/
def roleName : Role → String
  | .user => "user"
  | .model => "model"
  | .system => "system"
  | .workflow => "workflow"

/-- Message record from src/types.ts. The optional isThinking flag is a Bool
(absent is modelled as false, matching its use in the code). -/
structure Message where
  id : String
  role : Role
  content : String
  isThinking : Bool
deriving DecidableEq

/-- Conversation record from src/types.ts. Numeric sampling parameters are
modelled as rationals. -/
structure Conversation where
  id : String
  title : String
  messages : List Message
  systemPrompt : String
  temperature : ℚ
  topP : ℚ
  model : String
  createdAt : ℕ
deriving DecidableEq

/-- Credential store: the gemini and openai API keys as read by getApiKeys in
src/services/aiService.ts (a key may be absent). -/
structure Keys where
  gemini : Option String
  openai : Option String
deriving DecidableEq

/-- The JavaScript truthiness test `!apiKey` used by getGeminiClient and
getOpenAIClient: an absent or empty key is not present. -/
def keyPresent : Option String → Bool
  | none => false
  | some s => !s.isEmpty

/-- The JavaScript test that a string trims to the empty string: every
character is whitespace (String.prototype.trim removes leading and trailing
whitespace, so the trimmed string is empty exactly when all characters are
whitespace, which is what the `!input.trim()` guard observes). -/
def isBlank (s : String) : Bool := s.toList.all Char.isWhitespace

/-- The JavaScript String.prototype.startsWith test on the character
sequences of the strings. -/
def strStartsWith (pre s : String) : Bool := pre.toList.isPrefixOf s.toList

/-- One entry of the Gemini history array built in streamGeminiChat. -/
structure GeminiContent where
  role : Role
  text : String
deriving DecidableEq

/-- The request streamGeminiChat submits to the Gemini SDK: model name, config
(systemInstruction, temperature, topP), role-tagged history, and the new
message. -/
structure GeminiRequest where
  model : String
  systemInstruction : String
  temperature : ℚ
  topP : ℚ
  history : List GeminiContent
  message : String
deriving DecidableEq

/-- Embedding of streamGeminiChat (src/services/aiService.ts lines 50-77):
history is messages.slice(0, -1) filtered to roles user/model; config carries
the system prompt and the sampling parameters unchanged; the last message is
sent as the new turn. An empty messages list would make the JS code fault on
lastMessage.content; here the message defaults to the empty string in that
(unreached) case. -/
def geminiRequest (c : Conversation) : GeminiRequest :=
  { model := c.model
    systemInstruction := c.systemPrompt
    temperature := c.temperature
    topP := c.topP
    history := (c.messages.dropLast.filter
        (fun m => m.role == Role.user || m.role == Role.model)).map
        (fun m => { role := m.role, text := m.content })
    message := (c.messages.getLast?).elim "" (fun m => m.content) }

/-- One entry of the OpenAI messages array built in streamOpenAIChat; the role
is the raw string the code puts there. -/
structure OpenAIMsg where
  role : String
  content : String
deriving DecidableEq

/-- The request streamOpenAIChat submits to the OpenAI SDK. -/
structure OpenAIRequest where
  model : String
  messages : List OpenAIMsg
  temperature : ℚ
  topP : ℚ
deriving DecidableEq

/-- Embedding of streamOpenAIChat (src/services/aiService.ts lines 79-118):
the messages array is a leading system message holding the system prompt,
followed by every conversation message (including the last), with role
"model" renamed to "assistant" and every other role kept as its runtime
string (the `as` cast in the source is a compile-time assertion only).
Sampling parameters are passed through unchanged. -/
def openaiRequest (c : Conversation) : OpenAIRequest :=
  { model := c.model
    messages := { role := "system", content := c.systemPrompt } ::
      c.messages.map (fun m =>
        { role := if m.role == Role.model then "assistant" else roleName m.role
          content := m.content })
    temperature := c.temperature
    topP := c.topP }

/-- The message thrown by streamChat when the Gemini key is missing. -/
def geminiMissingMsg : String :=
  "Gemini API key is not configured. Please use an OpenAI model instead or configure your Gemini API key."

/-- The message thrown by streamOpenAIChat when the OpenAI key is missing. -/
def openaiMissingMsg : String :=
  "OpenAI API key is not configured. Please set OPENAI_API_KEY in your environment variables."

/-- Outcome of the dispatch performed by streamChat: either a configuration
error thrown before any network call, or a provider network call carrying the
submitted request. -/
inductive Dispatch where
  | configError (msg : String)
  | geminiCall (req : GeminiRequest)
  | openaiCall (req : OpenAIRequest)
deriving DecidableEq

/-- Whether a dispatch outcome issues a provider network call. -/
def Dispatch.isCall : Dispatch → Bool
  | .configError _ => false
  | .geminiCall _ => true
  | .openaiCall _ => true

/-- Embedding of streamChat (src/services/aiService.ts lines 37-48) together
with the client checks of the two adapters: a model starting with "gpt-" goes
to the OpenAI adapter, every other model goes to the Gemini adapter; a missing
key for the chosen adapter throws before any network call, otherwise the
provider call is issued with the adapter request. -/
def streamChat (keys : Keys) (c : Conversation) : Dispatch :=
  if strStartsWith "gpt-" c.model then
    if keyPresent keys.openai then Dispatch.openaiCall (openaiRequest c)
    else Dispatch.configError openaiMissingMsg
  else
    if keyPresent keys.gemini then Dispatch.geminiCall (geminiRequest c)
    else Dispatch.configError geminiMissingMsg

/-- The configuration error, if any, that streamChat raises for a given model
under given keys (none means a network call is issued). -/
def dispatchErr (keys : Keys) (model : String) : Option String :=
  if strStartsWith "gpt-" model then
    if keyPresent keys.openai then none else some openaiMissingMsg
  else
    if keyPresent keys.gemini then none else some geminiMissingMsg

/-- Observable events of one handleSend run: the title-generation network
call, the streaming-chat network call, and each persisted write of the
conversations list (every setConversations writes localStorage via the
useLocalStorage hook in src/App.tsx). -/
inductive Ev where
  | netTitle
  | netStream
  | persist (convs : List Conversation)
deriving DecidableEq

/-- Lookup of the active conversation, as conversations.find on id equality
in src/App.tsx. -/
def findConv : List Conversation → String → Option Conversation
  | [], _ => none
  | c :: rest, aid => if c.id = aid then some c else findConv rest aid

/-- The setConversations(prev.map(...)) update pattern of handleSend: every
conversation whose id matches is rewritten by g, all others kept. -/
def updConv (aid : String) (g : Conversation → Conversation) :
    List Conversation → List Conversation
  | [] => []
  | c :: rest =>
      (if c.id = aid then g c else c) :: updConv aid g rest

/-- Rewrite the last element of a message list, as the guarded in-place
replacement in the streaming loop of handleSend (no-op on an empty list,
matching the `if (lastMessage)` guard). -/
def updateLast (f : Message → Message) : List Message → List Message
  | [] => []
  | [m] => [f m]
  | m :: m2 :: rest => m :: updateLast f (m2 :: rest)

/-- First-chunk update of one conversation: drop the placeholder and append a
fresh non-thinking model message carrying the accumulated response. -/
def firstChunkUpdate (idM full : String) (c : Conversation) : Conversation :=
  { c with messages := c.messages.dropLast ++
      [{ id := idM, role := Role.model, content := full, isThinking := false }] }

/-- Later-chunk update of one conversation: rewrite the content of its last
message to the accumulated response. -/
def contentUpdate (full : String) (c : Conversation) : Conversation :=
  { c with messages := updateLast (fun m => { m with content := full }) c.messages }

/-- One iteration of the delta loop in handleSend (src/App.tsx lines 361-384):
full is the accumulated response including the present delta; on the first
chunk the placeholder is replaced by a fresh non-thinking model message,
afterwards only the content of the last message is rewritten. -/
def applyDelta (aid idM full : String) (firstChunk : Bool)
    (convs : List Conversation) : List Conversation :=
  match firstChunk with
  | true => updConv aid (firstChunkUpdate idM full) convs
  | false => updConv aid (contentUpdate full) convs

/-- The placeholder append of handleSend applied to one conversation: a
pending (isThinking) model message with empty content. -/
def placeholderUpdate (idM : String) (c : Conversation) : Conversation :=
  { c with messages := c.messages ++
      [{ id := idM, role := Role.model, content := "", isThinking := true }] }

/-- The delta loop of handleSend. Each iteration calls setConversations with
a functional updater, but useLocalStorage.setValue (src/App.tsx lines 24-34)
evaluates every updater against the storedValue snapshot captured when the
handler closure was created, not against the result of the previous write;
so every chunk write is computed from the click-time snapshot snap, each
write overwrites the one before it, and the state after the loop is the last
write (or cur, the state entering the loop, when no delta arrives). One
persist event is emitted per delta. -/
def runDeltas (aid idM : String) (snap : List Conversation) :
    List String → String → Bool → List Conversation → List Conversation × List Ev
  | [], _, _, cur => (cur, [])
  | d :: rest, full, firstChunk, _ =>
      let full' := full ++ d
      let w := applyDelta aid idM full' firstChunk snap
      let r := runDeltas aid idM snap rest full' false w
      (r.1, Ev.persist w :: r.2)

/-- The error replacement applied to one conversation by the catch block of
handleSend: the last message (placeholder or partial content) becomes a
terminal error message. -/
def errorUpdate (idM msg : String) (c : Conversation) : Conversation :=
  { c with messages := c.messages.dropLast ++
      [{ id := idM, role := Role.model, content := "Error: " ++ msg,
         isThinking := false }] }

/-- The catch block of handleSend: replaces the last message of the active
conversation (placeholder or partial content) with a terminal error message. -/
def errorReplace (aid idM msg : String) (convs : List Conversation) :
    List Conversation :=
  updConv aid (errorUpdate idM msg) convs

/-- Semantic result of one handleSend invocation. ignored is the silent early
return of the guard; threw models a promise rejection propagating to the
caller (no path of the source produces it, it is the channel the spec claims
validation failures use); ran carries the final conversations list, the final
isLoading flag, the error banner, and the event trace. -/
inductive SendResult where
  | ignored
  | threw (msg : String)
  | ran (convs : List Conversation) (isLoading : Bool) (error : Option String)
      (trace : List Ev)
deriving DecidableEq

/-- Whether a handleSend result is a rejection propagated to the caller. -/
def SendResult.wasThrown : SendResult → Bool
  | .threw _ => true
  | _ => false

/-- The event trace of a handleSend result (empty when no run happened). -/
def traceOf : SendResult → List Ev
  | .ran _ _ _ tr => tr
  | _ => []

/-- Whether a handleSend result is a completed run. -/
def SendResult.isRan : SendResult → Bool
  | .ran _ _ _ _ => true
  | _ => false

/-- The final conversations list of a handleSend run. -/
def SendResult.convsOf : SendResult → List Conversation
  | .ran cs _ _ _ => cs
  | _ => []

/-- The final isLoading flag of a handleSend run. -/
def SendResult.loadingOf : SendResult → Bool
  | .ran _ l _ _ => l
  | _ => false

/-- The final error banner of a handleSend run. -/
def SendResult.errorOf : SendResult → Option String
  | .ran _ _ e _ => e
  | _ => none

/-- The user message built by handleSend. -/
def mkUserMsg (idU input : String) : Message :=
  { id := idU, role := Role.user, content := input, isThinking := false }

/-- The first state update of handleSend on the active conversation: append
the user message, and on a first turn (empty message list) also install the
auto-generated title. -/
def userAppend (autoTitle idU input : String) (a : Conversation) : Conversation :=
  if a.messages.isEmpty then
    { a with title := autoTitle, messages := a.messages ++ [mkUserMsg idU input] }
  else
    { a with messages := a.messages ++ [mkUserMsg idU input] }

/-- Body of handleSend after the guard, for active conversation a found in
the click-time snapshot convs. Every setConversations(prev => ...) of the
source goes through useLocalStorage.setValue (src/App.tsx lines 24-34),
which evaluates the updater against the render-time storedValue snapshot and
stores the computed value; the handler closure keeps one such setter for the
whole turn, so each write below is computed from the snapshot convs, later
writes overwrite earlier ones, and the final state of the turn is its last
write. Parameters supply the outcomes of the external collaborators:
autoTitle is the result of getTitleForChat (total, it returns "New Chat" on
failure), deltas are the chunks the provider stream yields before
terminating, streamErr is the message of the error the stream (or its
establishment) raises after the provider call, none meaning normal
completion. idU and idM are the Date.now()-derived ids of the user and
placeholder messages. -/
def sendCore (keys : Keys) (autoTitle : String) (deltas : List String)
    (streamErr : Option String) (idU idM input : String)
    (convs : List Conversation) (a : Conversation) : SendResult :=
  let convToUpdate : Conversation := userAppend autoTitle idU input a
  let titleTrace : List Ev := if a.messages.isEmpty then [Ev.netTitle] else []
  let write1 := updConv a.id (fun _ => convToUpdate) convs
  let write2 := updConv a.id (placeholderUpdate idM) convs
  match streamChat keys convToUpdate with
  | Dispatch.configError msg =>
      let writeE := errorReplace a.id idM msg convs
      SendResult.ran writeE false (some msg)
        (titleTrace ++ [Ev.persist write1, Ev.persist write2, Ev.persist writeE])
  | Dispatch.geminiCall _ =>
      let r := runDeltas a.id idM convs deltas "" true write2
      match streamErr with
      | none =>
          SendResult.ran r.1 false none
            (titleTrace ++ [Ev.persist write1, Ev.persist write2, Ev.netStream] ++ r.2)
      | some m =>
          let writeE := errorReplace a.id idM m convs
          SendResult.ran writeE false (some m)
            (titleTrace ++ [Ev.persist write1, Ev.persist write2, Ev.netStream] ++
              r.2 ++ [Ev.persist writeE])
  | Dispatch.openaiCall _ =>
      let r := runDeltas a.id idM convs deltas "" true write2
      match streamErr with
      | none =>
          SendResult.ran r.1 false none
            (titleTrace ++ [Ev.persist write1, Ev.persist write2, Ev.netStream] ++ r.2)
      | some m =>
          let writeE := errorReplace a.id idM m convs
          SendResult.ran writeE false (some m)
            (titleTrace ++ [Ev.persist write1, Ev.persist write2, Ev.netStream] ++
              r.2 ++ [Ev.persist writeE])

/-- Embedding of handleSend (src/App.tsx lines 332-395). The guard returns
silently (SendResult.ignored) when the trimmed input is empty, a turn is in
flight (isLoading), or there is no active conversation; otherwise the turn of
sendCore runs. No path throws. -/
def handleSend (keys : Keys) (autoTitle : String) (deltas : List String)
    (streamErr : Option String) (idU idM input : String) (isLoading : Bool)
    (convs : List Conversation) (activeId : Option String) : SendResult :=
  if isBlank input || isLoading then SendResult.ignored
  else
    match activeId with
    | none => SendResult.ignored
    | some aid =>
        match findConv convs aid with
        | none => SendResult.ignored
        | some a => sendCore keys autoTitle deltas streamErr idU idM input convs a

/-- A constructed provider client handle. JavaScript object construction is
modelled by drawing a fresh allocation number, so two calls to `new` yield
distinguishable handles. -/
structure Client where
  handleId : ℕ
  apiKey : String
deriving DecidableEq

/-- Embedding of getGeminiClient (src/services/aiService.ts lines 22-26):
reads the gemini key; if it is absent or empty returns null, otherwise
constructs a new GoogleGenAI handle. The second component is the allocation
counter after the call. -/
def getGeminiClient (apiKey : Option String) (nextId : ℕ) : Option Client × ℕ :=
  if keyPresent apiKey then (some { handleId := nextId, apiKey := apiKey.getD "" }, nextId + 1)
  else (none, nextId)

/-- Embedding of getOpenAIClient (src/services/aiService.ts lines 28-35): same
shape as getGeminiClient, constructing a new OpenAI handle on every call with
a present key. -/
def getOpenAIClient (apiKey : Option String) (nextId : ℕ) : Option Client × ℕ :=
  if keyPresent apiKey then (some { handleId := nextId, apiKey := apiKey.getD "" }, nextId + 1)
  else (none, nextId)

/-- JSON values, for the webhook response handling of postToWebhook. Numbers
are modelled as integers (the fragment the claims exercise). -/
inductive Json where
  | null
  | bool (b : Bool)
  | num (n : ℤ)
  | str (s : String)
  | arr (elems : List Json)
  | obj (fields : List (String × Json))

/-- JavaScript truthiness of a JSON value. -/
def truthy : Json → Bool
  | .null => false
  | .bool b => b
  | .num n => n != 0
  | .str s => !s.isEmpty
  | .arr _ => true
  | .obj _ => true

/-- Escaping of one character inside a JSON string literal, as
JSON.stringify performs it for the common characters. -/
def escChar : Char → String
  | '"' => "\\\""
  | '\\' => "\\\\"
  | '\n' => "\\n"
  | '\r' => "\\r"
  | '\t' => "\\t"
  | ch => String.singleton ch

/-- Escaping of a whole string for a JSON string literal. -/
def jsEscape (s : String) : String :=
  String.join (s.toList.map escChar)

mutual

/-- JSON.stringify(value, null, 2) at nesting indentation ind: two extra
spaces per level, entries separated by a comma and newline. -/
def stringifyV (ind : String) : Json → String
  | .null => "null"
  | .bool true => "true"
  | .bool false => "false"
  | .num n => toString n
  | .str s => "\"" ++ jsEscape s ++ "\""
  | .arr [] => "[]"
  | .arr (x :: xs) =>
      "[\n" ++ String.intercalate ",\n" (stringifyArr (ind ++ "  ") (x :: xs)) ++
        "\n" ++ ind ++ "]"
  | .obj [] => "\x7b\x7d"
  | .obj (f :: fs) =>
      "\x7b\n" ++ String.intercalate ",\n" (stringifyFields (ind ++ "  ") (f :: fs)) ++
        "\n" ++ ind ++ "\x7d"

/-- Rendered lines of a JSON array body at indentation ind. -/
def stringifyArr (ind : String) : List Json → List String
  | [] => []
  | x :: xs => (ind ++ stringifyV ind x) :: stringifyArr ind xs

/-- Rendered lines of a JSON object body at indentation ind. -/
def stringifyFields (ind : String) : List (String × Json) → List String
  | [] => []
  | (k, v) :: fs =>
      (ind ++ "\"" ++ jsEscape k ++ "\": " ++ stringifyV ind v) :: stringifyFields ind fs

end

/-- JSON.stringify(value, null, 2) at top level. -/
def stringify2 (j : Json) : String := stringifyV "" j

/-- The JavaScript property access jsonResponse.text: none models a TypeError
(access on null), some none models undefined (absent field or access on a
primitive), some (some v) is the value of the field. -/
def propText : Json → Option (Option Json)
  | .null => none
  | .obj fields => some ((fields.find? (fun f => f.1 == "text")).map (fun f => f.2))
  | _ => some none

/-- An HTTP response as postToWebhook inspects it: status, statusText, the
content-type header value, and the body text. -/
structure HttpResp where
  status : ℕ
  statusText : String
  contentType : Option String
  body : String
deriving DecidableEq

/-- The fetch Response.ok flag: status in the range 200-299. -/
def respOk (r : HttpResp) : Bool :=
  decide (200 ≤ r.status) && decide (r.status ≤ 299)

/-- Whether the second list occurs as a contiguous run inside the first. -/
def listContains : List Char → List Char → Bool
  | [], needle => needle.isEmpty
  | hay@(_ :: rest), needle => needle.isPrefixOf hay || listContains rest needle

/-- Substring test modelling the JavaScript String.includes. -/
def containsStr (hay needle : String) : Bool :=
  listContains hay.toList needle.toList

/-- Whether the content-type header indicates JSON, as the
contentType && contentType.includes check of postToWebhook. -/
def ctJson : Option String → Bool
  | none => false
  | some ct => containsStr ct "application/json"

/-- The authentication error message of postToWebhook for status 401. -/
def authErrMsg : String :=
  "Authentication failed (401). Please check that your Make.com API key in Settings is correct and valid for the webhook URL."

/-- The missing-key error message of postToWebhook. -/
def keyMissingMsg : String :=
  "Make.com API key is not configured. Please set it in Settings."

/-- The canned success string postToWebhook returns for an empty body. -/
def emptyBodyMsg : String :=
  "Workflow executed successfully (no content returned)."

/-- The generic status error message of postToWebhook for a non-401 non-2xx
status: statusText of the response, or a canned phrase when it is empty. -/
def statusErrMsg (status : ℕ) (statusText : String) : String :=
  "Webhook request failed: " ++ toString status ++ " " ++
    (if statusText.isEmpty then "An error occurred" else statusText)

/-- The jsonResponse.text || JSON.stringify(jsonResponse, null, 2) expression
of postToWebhook inside the inner try: a TypeError (property access on null)
is caught and yields the raw body text; an undefined or falsy field yields the
pretty-printed whole value; a truthy field yields the field value. -/
def handleJson (bodyText : String) (j : Json) : Json :=
  match propText j with
  | none => Json.str bodyText
  | some none => Json.str (stringify2 j)
  | some (some v) => if truthy v then v else Json.str (stringify2 j)

/-- Embedding of postToWebhook (src/services/aiService.ts lines 199-247) after
a completed fetch. parse is the outcome of JSON.parse on the body (none when
it throws); the external fetch and JSON.parse primitives are supplied as
parameters. The result is the thrown error message or the returned value. -/
def postToWebhook (apiKey : String) (resp : HttpResp) (parse : Option Json) :
    Except String Json :=
  if apiKey.isEmpty then Except.error keyMissingMsg
  else if !respOk resp then
    if resp.status = 401 then Except.error authErrMsg
    else Except.error (statusErrMsg resp.status resp.statusText)
  else if resp.body.isEmpty then Except.ok (Json.str emptyBodyMsg)
  else if ctJson resp.contentType then
    match parse with
    | some j => Except.ok (handleJson resp.body j)
    | none => Except.ok (Json.str resp.body)
  else Except.ok (Json.str resp.body)

/-- Test fixture: a fresh Gemini conversation with no messages. -/
def geminiConvEmpty : Conversation :=
  { id := "c1", title := "t", messages := [], systemPrompt := "sys",
    temperature := 1, topP := 1, model := "gemini-2.5-flash", createdAt := 0 }

/-- Test fixture: a Gemini conversation with one prior exchange. -/
def geminiConvBusy : Conversation :=
  { id := "c2", title := "t", messages :=
      [{ id := "u0", role := Role.user, content := "q", isThinking := false },
       { id := "m0", role := Role.model, content := "a", isThinking := false }],
    systemPrompt := "sys", temperature := 1, topP := 1,
    model := "gemini-2.5-flash", createdAt := 0 }

/-- Test fixture: a conversation storing out-of-range sampling parameters. -/
def hotConv : Conversation :=
  { id := "c3", title := "t", messages :=
      [{ id := "u1", role := Role.user, content := "hi", isThinking := false }],
    systemPrompt := "sys", temperature := 5, topP := 2,
    model := "gemini-2.5-flash", createdAt := 0 }

/-- Test fixture: a conversation whose model name matches no supported
provider naming convention. -/
def llamaConv : Conversation :=
  { id := "c4", title := "t", messages :=
      [{ id := "u1", role := Role.user, content := "hi", isThinking := false }],
    systemPrompt := "sys", temperature := 1, topP := 1,
    model := "llama-unknown", createdAt := 0 }

/-- Test fixture: an OpenAI conversation holding a workflow-role message
before the final user message. -/
def wfConv : Conversation :=
  { id := "c6", title := "t", messages :=
      [{ id := "w1", role := Role.workflow, content := "wf", isThinking := false },
       { id := "u1", role := Role.user, content := "hi", isThinking := false }],
    systemPrompt := "sys", temperature := 1, topP := 1,
    model := "gpt-4o", createdAt := 0 }

/-- Test fixture: an HTTP 404 response with empty status text and body. -/
def resp404 : HttpResp :=
  { status := 404, statusText := "", contentType := none, body := "" }

/-- Test fixture: an HTTP 500 response with empty status text and body. -/
def resp500 : HttpResp :=
  { status := 500, statusText := "", contentType := none, body := "" }

/-- Test fixture: an HTTP 401 response. -/
def resp401 : HttpResp :=
  { status := 401, statusText := "Unauthorized", contentType := none, body := "" }

/-- Test fixture: a 200 JSON response whose text field holds the empty
string. -/
def respFalsyText : HttpResp :=
  { status := 200, statusText := "OK", contentType := some "application/json",
    body := "\x7b\"text\":\"\"\x7d" }

/-- Test fixture: the parsed JSON body of respFalsyText. -/
def falsyTextJson : Json := Json.obj [("text", Json.str "")]

/-- Whether the first network-or-persist event of a trace is a network call
(title generation or streaming). -/
def netBeforePersist : List Ev → Bool
  | [] => false
  | Ev.netTitle :: _ => true
  | Ev.netStream :: _ => true
  | Ev.persist _ :: _ => false

/-- Whether a streaming network call occurs before any persisted write
(title-generation calls are skipped). -/
def netStreamBeforePersist : List Ev → Bool
  | [] => false
  | Ev.netStream :: _ => true
  | Ev.persist _ :: _ => false
  | Ev.netTitle :: rest => netStreamBeforePersist rest

/-- A conversation found by id lookup carries that id. -/
theorem findConv_some_id :
    ∀ (l : List Conversation) (aid : String) (a : Conversation),
      findConv l aid = some a → a.id = aid := by
  intro l aid
  induction l with
  | nil => intro a h; simp [findConv] at h
  | cons c rest ih =>
      intro a h
      by_cases hc : c.id = aid
      · simp only [findConv, if_pos hc] at h
        cases h
        exact hc
      · simp only [findConv, if_neg hc] at h
        exact ih a h

/-- Id lookup commutes with the map-matching update, provided the update
keeps the id of matching conversations. -/
theorem findConv_updConv (aid : String) (g : Conversation → Conversation)
    (hg : ∀ c : Conversation, c.id = aid → (g c).id = aid) :
    ∀ l : List Conversation,
      findConv (updConv aid g l) aid = (findConv l aid).map g := by
  intro l
  induction l with
  | nil => rfl
  | cons c rest ih =>
      by_cases hc : c.id = aid
      · simp [updConv, findConv, hc, hg c hc]
      · simp [updConv, findConv, hc, ih]

/-- Rewriting the last element of a list ending in x rewrites exactly x. -/
theorem updateLast_append (f : Message → Message) :
    ∀ (M : List Message) (x : Message),
      updateLast f (M ++ [x]) = M ++ [f x] := by
  intro M
  induction M with
  | nil => intro x; rfl
  | cons m rest ih =>
      intro x
      cases rest with
      | nil => rfl
      | cons m2 rest2 =>
          simp only [List.cons_append, updateLast, List.append_eq]
          rw [← List.cons_append, ih x]
          simp

/-- userAppend keeps the conversation id. -/
theorem userAppend_id (autoTitle idU input : String) (a : Conversation) :
    (userAppend autoTitle idU input a).id = a.id := by
  unfold userAppend
  split <;> rfl

/-- userAppend keeps the conversation model. -/
theorem userAppend_model (autoTitle idU input : String) (a : Conversation) :
    (userAppend autoTitle idU input a).model = a.model := by
  unfold userAppend
  split <;> rfl

/-- userAppend appends exactly the user message. -/
theorem userAppend_messages (autoTitle idU input : String) (a : Conversation) :
    (userAppend autoTitle idU input a).messages =
      a.messages ++ [mkUserMsg idU input] := by
  unfold userAppend
  split <;> rfl

/-- A configuration error recorded by dispatchErr is exactly what streamChat
throws. -/
theorem streamChat_of_err (keys : Keys) (c : Conversation) (m : String)
    (h : dispatchErr keys c.model = some m) :
    streamChat keys c = Dispatch.configError m := by
  unfold dispatchErr at h
  unfold streamChat
  by_cases hs : strStartsWith "gpt-" c.model
  · simp only [hs, if_true] at h ⊢
    by_cases hk : keyPresent keys.openai
    · simp [hk] at h
    · simp [hk] at h ⊢
      exact h
  · simp only [hs, if_false] at h ⊢
    by_cases hk : keyPresent keys.gemini
    · simp [hk] at h
    · simp [hk] at h ⊢
      exact h

/-- When dispatchErr clears a model, streamChat issues the provider call of
the branch chosen by the model name. -/
theorem streamChat_of_ok (keys : Keys) (c : Conversation)
    (h : dispatchErr keys c.model = none) :
    streamChat keys c =
      (if strStartsWith "gpt-" c.model then Dispatch.openaiCall (openaiRequest c)
       else Dispatch.geminiCall (geminiRequest c)) := by
  unfold dispatchErr at h
  unfold streamChat
  by_cases hs : strStartsWith "gpt-" c.model
  · simp only [hs, if_true] at h ⊢
    by_cases hk : keyPresent keys.openai
    · simp [hk]
    · simp [hk] at h
  · simp only [hs, if_false] at h ⊢
    by_cases hk : keyPresent keys.gemini
    · simp [hk]
    · simp [hk] at h

/-- With a non-blank input, no turn in flight and a found active conversation,
handleSend runs its body. -/
theorem handleSend_eq_sendCore (keys : Keys) (autoTitle : String)
    (deltas : List String) (streamErr : Option String) (idU idM input : String)
    (convs : List Conversation) (aid : String) (a : Conversation)
    (hin : isBlank input = false) (ha : findConv convs aid = some a) :
    handleSend keys autoTitle deltas streamErr idU idM input false convs (some aid) =
      sendCore keys autoTitle deltas streamErr idU idM input convs a := by
  simp [handleSend, hin, ha]

set_option maxHeartbeats 1600000 in
/-- Master lemma on the event order of a dispatched turn: the streaming call
never precedes the first persisted write, the first persisted write carries
the user message, and a first turn opens with the title-generation network
call while any later turn opens with a persisted write. -/
theorem sendCore_trace (keys : Keys) (autoTitle : String) (deltas : List String)
    (streamErr : Option String) (idU idM input : String)
    (convs : List Conversation) (aid : String) (a : Conversation)
    (ha : findConv convs aid = some a) :
    netStreamBeforePersist
        (traceOf (sendCore keys autoTitle deltas streamErr idU idM input convs a))
      = false ∧
    (a.messages.isEmpty = true →
      (traceOf (sendCore keys autoTitle deltas streamErr idU idM input convs a)).head?
        = some Ev.netTitle) ∧
    (a.messages.isEmpty = false →
      netBeforePersist
          (traceOf (sendCore keys autoTitle deltas streamErr idU idM input convs a))
        = false) ∧
    (∃ rest : List Ev,
      traceOf (sendCore keys autoTitle deltas streamErr idU idM input convs a) =
        (if a.messages.isEmpty then [Ev.netTitle] else []) ++
          Ev.persist (updConv a.id (fun _ => userAppend autoTitle idU input a) convs)
            :: rest) ∧
    findConv (updConv a.id (fun _ => userAppend autoTitle idU input a) convs) aid
      = some (userAppend autoTitle idU input a) := by
  have haid := findConv_some_id convs aid a ha
  subst haid
  have hfind1 : findConv (updConv a.id (fun _ => userAppend autoTitle idU input a) convs) a.id
      = some (userAppend autoTitle idU input a) := by
    rw [findConv_updConv a.id (fun _ => userAppend autoTitle idU input a)
      (fun c _ => userAppend_id _ _ _ _), ha]
    rfl
  have htr : ∃ rest : List Ev,
      traceOf (sendCore keys autoTitle deltas streamErr idU idM input convs a) =
        (if a.messages.isEmpty then [Ev.netTitle] else []) ++
          Ev.persist (updConv a.id (fun _ => userAppend autoTitle idU input a) convs)
            :: rest := by
    simp only [sendCore]
    rcases hd : streamChat keys (userAppend autoTitle idU input a) with m | r | r
    · exact ⟨_, rfl⟩
    · cases streamErr with
      | none =>
          refine ⟨[Ev.persist (updConv a.id (placeholderUpdate idM) convs),
            Ev.netStream] ++ (runDeltas a.id idM convs deltas "" true
              (updConv a.id (placeholderUpdate idM) convs)).2, ?_⟩
          simp [traceOf, List.append_assoc]
      | some m =>
          refine ⟨[Ev.persist (updConv a.id (placeholderUpdate idM) convs),
            Ev.netStream] ++ (runDeltas a.id idM convs deltas "" true
              (updConv a.id (placeholderUpdate idM) convs)).2 ++
            [Ev.persist (errorReplace a.id idM m convs)], ?_⟩
          simp [traceOf, List.append_assoc]
    · cases streamErr with
      | none =>
          refine ⟨[Ev.persist (updConv a.id (placeholderUpdate idM) convs),
            Ev.netStream] ++ (runDeltas a.id idM convs deltas "" true
              (updConv a.id (placeholderUpdate idM) convs)).2, ?_⟩
          simp [traceOf, List.append_assoc]
      | some m =>
          refine ⟨[Ev.persist (updConv a.id (placeholderUpdate idM) convs),
            Ev.netStream] ++ (runDeltas a.id idM convs deltas "" true
              (updConv a.id (placeholderUpdate idM) convs)).2 ++
            [Ev.persist (errorReplace a.id idM m convs)], ?_⟩
          simp [traceOf, List.append_assoc]
  rcases htr with ⟨rest, htr⟩
  rw [htr]
  by_cases hfe : a.messages.isEmpty
  · rw [if_pos hfe]
    exact ⟨rfl, fun _ => rfl, fun h => absurd hfe (by simp [h]), ⟨rest, rfl⟩, hfind1⟩
  · rw [if_neg hfe]
    exact ⟨rfl, fun h => absurd h hfe, fun _ => rfl, ⟨rest, rfl⟩, hfind1⟩

/-- The guard of handleSend: a blank input or an in-flight turn returns
silently with no state change and no thrown error. -/
theorem handleSend_guard (keys : Keys) (autoTitle : String)
    (deltas : List String) (streamErr : Option String) (idU idM input : String)
    (isLoading : Bool) (convs : List Conversation) (activeId : Option String)
    (h : isBlank input = true ∨ isLoading = true) :
    handleSend keys autoTitle deltas streamErr idU idM input isLoading convs activeId
      = SendResult.ignored := by
  rcases h with h | h <;> simp [handleSend, h]

/-- C2 counterexample: a blank-input call and an in-flight call are silently
ignored (the code returns with no error propagated to the caller), refuting
that such calls reject with a ValidationError. -/
theorem claim_C2_counterexample :
    handleSend ⟨some "k", none⟩ "t" [] none "u1" "m1" "   " false [geminiConvBusy]
      (some "c2") = SendResult.ignored ∧
    (handleSend ⟨some "k", none⟩ "t" [] none "u1" "m1" "   " false [geminiConvBusy]
      (some "c2")).wasThrown = false ∧
    handleSend ⟨some "k", none⟩ "t" [] none "u1" "m1" "hello" true [geminiConvBusy]
      (some "c2") = SendResult.ignored ∧
    (handleSend ⟨some "k", none⟩ "t" [] none "u1" "m1" "hello" true [geminiConvBusy]
      (some "c2")).wasThrown = false := by
  refine ⟨?_, ?_, ?_, ?_⟩ <;> rfl

/-- C2 amended: a call with blank input or while a turn is in flight returns
silently with no state change and no error propagated to the caller, so no
second pending placeholder can ever be produced. -/
theorem claim_C2_amended (keys : Keys) (autoTitle : String)
    (deltas : List String) (streamErr : Option String) (idU idM input : String)
    (isLoading : Bool) (convs : List Conversation) (activeId : Option String)
    (h : isBlank input = true ∨ isLoading = true) :
    handleSend keys autoTitle deltas streamErr idU idM input isLoading convs activeId
      = SendResult.ignored ∧
    (handleSend keys autoTitle deltas streamErr idU idM input isLoading convs
        activeId).wasThrown = false := by
  have hg := handleSend_guard keys autoTitle deltas streamErr idU idM input
    isLoading convs activeId h
  exact ⟨hg, by rw [hg]; rfl⟩

/-- Witness for the amended C2 at a concrete blank-input call. -/
theorem claim_C2_amended_witness :
    (isBlank " " = true ∨ false = true) ∧
    (handleSend ⟨none, none⟩ "t" [] none "u" "m" " " false [] none
        = SendResult.ignored ∧
     (handleSend ⟨none, none⟩ "t" [] none "u" "m" " " false [] none).wasThrown
        = false) :=
  ⟨Or.inl (by decide),
   claim_C2_amended ⟨none, none⟩ "t" [] none "u" "m" " " false [] none
     (Or.inl (by decide))⟩

/-- C3 counterexample: a conversation storing temperature 5 and top-p 2 has
those values submitted unchanged by both adapters, outside every range the
claim says they are clamped to, refuting that sampling parameters are clamped
before submission. -/
theorem claim_C3_counterexample :
    (geminiRequest hotConv).temperature = 5 ∧
    ¬ (geminiRequest hotConv).temperature ≤ 1 ∧
    (geminiRequest hotConv).topP = 2 ∧
    ¬ (geminiRequest hotConv).topP ≤ 1 ∧
    (openaiRequest hotConv).temperature = 5 ∧
    ¬ (openaiRequest hotConv).temperature ≤ 2 ∧
    (openaiRequest hotConv).topP = 2 ∧
    ¬ (openaiRequest hotConv).topP ≤ 1 := by
  refine ⟨rfl, ?_, rfl, ?_, rfl, ?_, rfl, ?_⟩ <;>
    norm_num [geminiRequest, openaiRequest, hotConv]

/-- C3 amended: both adapters pass the sampling parameters of the
conversation through to the provider unchanged; no clamping is performed. -/
theorem claim_C3_amended (c : Conversation) :
    (geminiRequest c).temperature = c.temperature ∧
    (geminiRequest c).topP = c.topP ∧
    (openaiRequest c).temperature = c.temperature ∧
    (openaiRequest c).topP = c.topP :=
  ⟨rfl, rfl, rfl, rfl⟩

/-- C4 counterexample: the model "llama-unknown" resolves to no supported
naming convention, yet with a Gemini credential present streamChat issues a
Gemini network call, refuting that dispatch fails with no network call. -/
theorem claim_C4_counterexample :
    strStartsWith "gpt-" llamaConv.model = false ∧
    streamChat ⟨some "k", none⟩ llamaConv
      = Dispatch.geminiCall (geminiRequest llamaConv) ∧
    (streamChat ⟨some "k", none⟩ llamaConv).isCall = true :=
  ⟨rfl, rfl, rfl⟩

/-- C4 amended: every model not starting with "gpt-" is dispatched to the
Gemini adapter; dispatch fails before any network call exactly when the
Gemini credential is absent, and with a credential present a Gemini network
call is attempted regardless of the model name. -/
theorem claim_C4_amended (keys : Keys) (c : Conversation)
    (hm : strStartsWith "gpt-" c.model = false) :
    (keyPresent keys.gemini = false →
      streamChat keys c = Dispatch.configError geminiMissingMsg) ∧
    (keyPresent keys.gemini = true →
      streamChat keys c = Dispatch.geminiCall (geminiRequest c) ∧
      (streamChat keys c).isCall = true) := by
  constructor <;> intro h <;> simp [streamChat, Dispatch.isCall, hm, h]

/-- Witness for the amended C4 at the unknown-model fixture. -/
theorem claim_C4_amended_witness :
    (strStartsWith "gpt-" llamaConv.model = false) ∧
    ((keyPresent (Keys.mk none (some "ok")).gemini = false →
      streamChat ⟨none, some "ok"⟩ llamaConv
        = Dispatch.configError geminiMissingMsg) ∧
     (keyPresent (Keys.mk none (some "ok")).gemini = true →
      streamChat ⟨none, some "ok"⟩ llamaConv
        = Dispatch.geminiCall (geminiRequest llamaConv) ∧
      (streamChat ⟨none, some "ok"⟩ llamaConv).isCall = true)) :=
  ⟨rfl, claim_C4_amended ⟨none, some "ok"⟩ llamaConv rfl⟩

/-- C5 counterexample: on a first turn the very first network-or-persist
event of the trace is the title-generation network call, so the user message
is not persisted before every network call of the turn. -/
theorem claim_C5_counterexample :
    netBeforePersist (traceOf (handleSend ⟨some "k", none⟩ "Title" ["a"] none
      "u1" "m1" "hi" false [geminiConvEmpty] (some "c1"))) = true ∧
    (traceOf (handleSend ⟨some "k", none⟩ "Title" ["a"] none
      "u1" "m1" "hi" false [geminiConvEmpty] (some "c1"))).head?
      = some Ev.netTitle :=
  ⟨rfl, rfl⟩

/-- C5 amended: in every accepted run the streaming network call happens only
after the user message has been persisted (the first persisted list carries
the active conversation with the user message appended); on a first turn,
however, the title-generation network call precedes every persisted write,
while on later turns no network call precedes the first persisted write. -/
theorem claim_C5_amended (keys : Keys) (autoTitle : String)
    (deltas : List String) (streamErr : Option String) (idU idM input : String)
    (convs : List Conversation) (aid : String) (a : Conversation)
    (hin : isBlank input = false) (ha : findConv convs aid = some a) :
    netStreamBeforePersist (traceOf (handleSend keys autoTitle deltas streamErr
        idU idM input false convs (some aid))) = false ∧
    (a.messages.isEmpty = true →
      (traceOf (handleSend keys autoTitle deltas streamErr idU idM input false
        convs (some aid))).head? = some Ev.netTitle) ∧
    (a.messages.isEmpty = false →
      netBeforePersist (traceOf (handleSend keys autoTitle deltas streamErr
        idU idM input false convs (some aid))) = false) ∧
    (∃ rest : List Ev,
      traceOf (handleSend keys autoTitle deltas streamErr idU idM input false
          convs (some aid)) =
        (if a.messages.isEmpty then [Ev.netTitle] else []) ++
          Ev.persist (updConv a.id (fun _ => userAppend autoTitle idU input a) convs)
            :: rest) ∧
    findConv (updConv a.id (fun _ => userAppend autoTitle idU input a) convs) aid
      = some (userAppend autoTitle idU input a) ∧
    (userAppend autoTitle idU input a).messages
      = a.messages ++ [mkUserMsg idU input] := by
  rw [handleSend_eq_sendCore keys autoTitle deltas streamErr idU idM input convs aid a hin ha]
  obtain ⟨h1, h2, h3, h4, h5⟩ :=
    sendCore_trace keys autoTitle deltas streamErr idU idM input convs aid a ha
  exact ⟨h1, h2, h3, h4, h5, userAppend_messages autoTitle idU input a⟩

/-- Witness for the amended C5 at a concrete later-turn run. -/
theorem claim_C5_amended_witness :
    (isBlank "hi" = false) ∧
    (findConv [geminiConvBusy] "c2" = some geminiConvBusy) ∧
    (netStreamBeforePersist (traceOf (handleSend ⟨some "k", none⟩ "t" ["d"] none
        "u1" "m1" "hi" false [geminiConvBusy] (some "c2"))) = false ∧
     (geminiConvBusy.messages.isEmpty = true →
       (traceOf (handleSend ⟨some "k", none⟩ "t" ["d"] none "u1" "m1" "hi" false
         [geminiConvBusy] (some "c2"))).head? = some Ev.netTitle) ∧
     (geminiConvBusy.messages.isEmpty = false →
       netBeforePersist (traceOf (handleSend ⟨some "k", none⟩ "t" ["d"] none
         "u1" "m1" "hi" false [geminiConvBusy] (some "c2"))) = false) ∧
     (∃ rest : List Ev,
       traceOf (handleSend ⟨some "k", none⟩ "t" ["d"] none "u1" "m1" "hi" false
           [geminiConvBusy] (some "c2")) =
         (if geminiConvBusy.messages.isEmpty then [Ev.netTitle] else []) ++
           Ev.persist (updConv geminiConvBusy.id
             (fun _ => userAppend "t" "u1" "hi" geminiConvBusy) [geminiConvBusy])
             :: rest) ∧
     findConv (updConv geminiConvBusy.id
         (fun _ => userAppend "t" "u1" "hi" geminiConvBusy) [geminiConvBusy]) "c2"
       = some (userAppend "t" "u1" "hi" geminiConvBusy) ∧
     (userAppend "t" "u1" "hi" geminiConvBusy).messages
       = geminiConvBusy.messages ++ [mkUserMsg "u1" "hi"]) :=
  ⟨rfl, rfl,
   claim_C5_amended ⟨some "k", none⟩ "t" ["d"] none "u1" "m1" "hi"
     [geminiConvBusy] "c2" geminiConvBusy rfl rfl⟩

/-- The role test of the Gemini history filter agrees with the propositional
membership test of the specification. -/
theorem roleFilter_eq (m : Message) :
    (m.role == Role.user || m.role == Role.model)
      = decide (m.role = Role.user ∨ m.role = Role.model) := by
  cases m.role <;> rfl

/-- The role rename of the OpenAI adapter agrees with its propositional
form. -/
theorem roleRename_eq (m : Message) :
    (if m.role == Role.model then "assistant" else roleName m.role)
      = (if m.role = Role.model then "assistant" else roleName m.role) := by
  cases m.role <;> rfl

/-- C6 counterexample: a conversation holding a workflow-role message before
the final user message submits, through the OpenAI adapter, a messages array
that contains the workflow-role entry and the last message itself, refuting
that the submitted history consists exactly of the pre-last messages with
roles outside user/model excluded. -/
theorem claim_C6_counterexample :
    (openaiRequest wfConv).messages =
      [{ role := "system", content := "sys" },
       { role := "workflow", content := "wf" },
       { role := "user", content := "hi" }] :=
  rfl

/-- C6 amended: the Gemini adapter behaves as the claim states (history is
exactly the messages before the last one with role user or model, system
content travels in the dedicated system-instruction field, and the last
message is sent as the new turn), while the OpenAI adapter prepends the
system prompt as a system-role entry and then maps every message, including
the last one and those with roles outside user/model, renaming only model to
assistant. -/
theorem claim_C6_amended (c : Conversation) :
    (geminiRequest c).history =
      ((c.messages.take (c.messages.length - 1)).filter
        (fun m => decide (m.role = Role.user ∨ m.role = Role.model))).map
        (fun m => { role := m.role, text := m.content }) ∧
    (geminiRequest c).systemInstruction = c.systemPrompt ∧
    (∀ last : Message, c.messages.getLast? = some last →
      (geminiRequest c).message = last.content) ∧
    (openaiRequest c).messages =
      { role := "system", content := c.systemPrompt } ::
        c.messages.map (fun m =>
          { role := if m.role = Role.model then "assistant" else roleName m.role
            content := m.content }) := by
  refine ⟨?_, rfl, ?_, ?_⟩
  · simp only [geminiRequest]
    rw [← List.dropLast_eq_take,
      List.filter_congr (fun m _ => roleFilter_eq m)]
  · intro last hl
    simp only [geminiRequest, hl, Option.elim]
  · simp only [openaiRequest]
    rw [List.map_congr_left (fun m _ => by rw [roleRename_eq m])]

/-- Witness for the amended C6 at the workflow fixture. -/
theorem claim_C6_amended_witness :
    (wfConv.messages.getLast? =
      some { id := "u1", role := Role.user, content := "hi", isThinking := false }) ∧
    ((geminiRequest wfConv).message = "hi") :=
  ⟨rfl, (claim_C6_amended wfConv).2.2.1
    { id := "u1", role := Role.user, content := "hi", isThinking := false } rfl⟩

/-- C7 counterexample: a 404 response with empty status text yields the same
generic status error every other non-401 failing status yields, with no
not-found wording, refuting that 404 gets a dedicated not-found error. -/
theorem claim_C7_counterexample :
    postToWebhook "key" resp404 none
      = Except.error "Webhook request failed: 404 An error occurred" ∧
    containsStr "Webhook request failed: 404 An error occurred" "not found" = false ∧
    containsStr "Webhook request failed: 404 An error occurred" "Not Found" = false ∧
    postToWebhook "key" resp500 none
      = Except.error "Webhook request failed: 500 An error occurred" :=
  ⟨rfl, by decide, by decide, rfl⟩

/-- C7 amended: the webhook outcome map, as implemented: 401 yields the
dedicated authentication error; every other non-2xx status, 404 included,
yields the generic status error carrying the status code and the
server-supplied status text (or a canned phrase when it is empty); a 2xx
empty body yields the canned acknowledgement; a JSON-typed body parsing to a
value with a truthy text field yields that field, one with an undefined text
field yields the pretty-printed value, an unparseable or non-JSON-typed body
is returned verbatim. -/
theorem claim_C7_amended (apiKey : String) (resp : HttpResp) (parse : Option Json)
    (hk : apiKey.isEmpty = false) :
    (respOk resp = false → resp.status = 401 →
      postToWebhook apiKey resp parse = Except.error authErrMsg) ∧
    (respOk resp = false → resp.status ≠ 401 →
      postToWebhook apiKey resp parse
        = Except.error (statusErrMsg resp.status resp.statusText)) ∧
    (respOk resp = true → resp.body.isEmpty = true →
      postToWebhook apiKey resp parse = Except.ok (Json.str emptyBodyMsg)) ∧
    (respOk resp = true → resp.body.isEmpty = false →
      ctJson resp.contentType = false →
      postToWebhook apiKey resp parse = Except.ok (Json.str resp.body)) ∧
    (respOk resp = true → resp.body.isEmpty = false →
      ctJson resp.contentType = true → parse = none →
      postToWebhook apiKey resp parse = Except.ok (Json.str resp.body)) ∧
    (∀ j v : Json, respOk resp = true → resp.body.isEmpty = false →
      ctJson resp.contentType = true → parse = some j →
      propText j = some (some v) → truthy v = true →
      postToWebhook apiKey resp parse = Except.ok v) ∧
    (∀ j : Json, respOk resp = true → resp.body.isEmpty = false →
      ctJson resp.contentType = true → parse = some j →
      propText j = some none →
      postToWebhook apiKey resp parse = Except.ok (Json.str (stringify2 j))) := by
  refine ⟨?_, ?_, ?_, ?_, ?_, ?_, ?_⟩
  · intro h1 h2
    simp [postToWebhook, hk, h1, h2]
  · intro h1 h2
    simp [postToWebhook, hk, h1, h2]
  · intro h1 h2
    simp [postToWebhook, hk, h1, h2]
  · intro h1 h2 h3
    simp [postToWebhook, hk, h1, h2, h3]
  · intro h1 h2 h3 h4
    simp [postToWebhook, hk, h1, h2, h3, h4]
  · intro j v h1 h2 h3 h4 h5 h6
    simp [postToWebhook, handleJson, hk, h1, h2, h3, h4, h5, h6]
  · intro j h1 h2 h3 h4 h5
    simp [postToWebhook, handleJson, hk, h1, h2, h3, h4, h5]

/-- Witness for the amended C7 at the 401 fixture. -/
theorem claim_C7_amended_witness :
    ("key".isEmpty = false) ∧ (respOk resp401 = false) ∧
    (resp401.status = 401) ∧
    postToWebhook "key" resp401 none = Except.error authErrMsg :=
  ⟨rfl, rfl, rfl, (claim_C7_amended "key" resp401 none rfl).1 rfl rfl⟩

/-- C9 counterexample: two successive getGeminiClient calls with the same
present credential construct two distinct handles; the second call does not
return the previously constructed one, refuting the claimed memoization. -/
theorem claim_C9_counterexample :
    (getGeminiClient (some "k") 0).1 = some { handleId := 0, apiKey := "k" } ∧
    (getGeminiClient (some "k") ((getGeminiClient (some "k") 0).2)).1
      = some { handleId := 1, apiKey := "k" } ∧
    (getGeminiClient (some "k") ((getGeminiClient (some "k") 0).2)).1
      ≠ (getGeminiClient (some "k") 0).1 :=
  ⟨rfl, rfl, by decide⟩

/-- C9 amended: with an absent or empty credential both client getters return
none and construct nothing; with a present credential every call constructs
and returns a fresh handle, so a repeated call never returns the previously
constructed one. -/
theorem claim_C9_amended (key : Option String) (n : ℕ) :
    (keyPresent key = false →
      getGeminiClient key n = (none, n) ∧ getOpenAIClient key n = (none, n)) ∧
    (keyPresent key = true →
      getGeminiClient key n = (some { handleId := n, apiKey := key.getD "" }, n + 1) ∧
      getOpenAIClient key n = (some { handleId := n, apiKey := key.getD "" }, n + 1) ∧
      (getGeminiClient key (getGeminiClient key n).2).1
        ≠ (getGeminiClient key n).1) := by
  constructor <;> intro h
  · simp [getGeminiClient, getOpenAIClient, h]
  · refine ⟨by simp [getGeminiClient, h], by simp [getOpenAIClient, h], ?_⟩
    simp [getGeminiClient, h]

/-- Witness for the amended C9 at a present credential. -/
theorem claim_C9_amended_witness :
    (keyPresent (some "k") = true) ∧
    (getGeminiClient (some "k") 0
        = (some { handleId := 0, apiKey := (some "k").getD "" }, 1) ∧
     getOpenAIClient (some "k") 0
        = (some { handleId := 0, apiKey := (some "k").getD "" }, 1) ∧
     (getGeminiClient (some "k") (getGeminiClient (some "k") 0).2).1
        ≠ (getGeminiClient (some "k") 0).1) :=
  ⟨rfl, (claim_C9_amended (some "k") 0).2 rfl⟩

/-- C10: a 2xx JSON-typed response whose parsed body has a text field holding
a falsy value is answered with the pretty-printed JSON of the whole body, not
the field value, because the field is selected by truthiness. -/
theorem claim_C10 (apiKey : String) (resp : HttpResp) (j v : Json)
    (hk : apiKey.isEmpty = false) (hok : respOk resp = true)
    (hb : resp.body.isEmpty = false) (hct : ctJson resp.contentType = true)
    (hv : propText j = some (some v)) (hfalsy : truthy v = false) :
    postToWebhook apiKey resp (some j) = Except.ok (Json.str (stringify2 j)) := by
  simp [postToWebhook, handleJson, hk, hok, hb, hct, hv, hfalsy]

/-- Witness for C10 at a body whose text field is the empty string. -/
theorem claim_C10_witness :
    ("key".isEmpty = false) ∧ (respOk respFalsyText = true) ∧
    (respFalsyText.body.isEmpty = false) ∧
    (ctJson respFalsyText.contentType = true) ∧
    (propText falsyTextJson = some (some (Json.str ""))) ∧
    (truthy (Json.str "") = false) ∧
    postToWebhook "key" respFalsyText (some falsyTextJson)
      = Except.ok (Json.str (stringify2 falsyTextJson)) :=
  ⟨rfl, rfl, rfl, by decide, rfl, rfl,
   claim_C10 "key" respFalsyText falsyTextJson (Json.str "") rfl rfl rfl
     (by decide) rfl rfl⟩

/-- Folding string concatenation distributes over a prepended piece of the
accumulator. -/
theorem foldl_append_hoist :
    ∀ (l : List String) (a b : String),
      List.foldl (fun r s => r ++ s) (a ++ b) l =
        a ++ List.foldl (fun r s => r ++ s) b l := by
  intro l
  induction l with
  | nil => intro a b; rfl
  | cons h t ih =>
      intro a b
      simp only [List.foldl]
      rw [String.append_assoc, ih]

/-- String.join of a cons splits into head and joined tail. -/
theorem join_cons (d : String) (ds : List String) :
    String.join (d :: ds) = d ++ String.join ds := by
  simp only [String.join, List.foldl]
  rw [show ("" ++ d : String) = "" ++ (d ++ "") by simp, foldl_append_hoist,
    foldl_append_hoist]
  simp

/-- The state after the delta loop is its last write, which is computed from
the snapshot: the first-chunk write when exactly one delta arrived, and the
content rewrite carrying the full concatenation when more arrived. -/
theorem runDeltas_fst_cons (aid idM : String) (snap : List Conversation) :
    ∀ (rest : List String) (d full : String) (fc : Bool) (cur : List Conversation),
      (runDeltas aid idM snap (d :: rest) full fc cur).1 =
        if rest.isEmpty then applyDelta aid idM (full ++ d) fc snap
        else applyDelta aid idM (full ++ String.join (d :: rest)) false snap := by
  intro rest
  induction rest with
  | nil => intro d full fc cur; rfl
  | cons d2 rest2 ih =>
      intro d full fc cur
      show (runDeltas aid idM snap (d2 :: rest2) (full ++ d) false
          (applyDelta aid idM (full ++ d) fc snap)).1 = _
      rw [ih d2 (full ++ d) false (applyDelta aid idM (full ++ d) fc snap)]
      cases rest2 with
      | nil => simp [join_cons, String.join, String.append_assoc]
      | cons d3 rest3 => simp [join_cons, String.append_assoc]

/-- Under the snapshot semantics of useLocalStorage, the final persisted
state of every failing turn is the error write applied to the click-time
snapshot: the active conversation ends as errorUpdate of its snapshot value,
whose messages are the prior messages minus the last one plus the terminal
error message, with the user message of the turn absent. -/
theorem sendCore_error_final (keys : Keys) (autoTitle : String)
    (deltas : List String) (streamErr : Option String) (idU idM input : String)
    (convs : List Conversation) (aid : String) (a : Conversation) (m : String)
    (ha : findConv convs aid = some a)
    (herr : dispatchErr keys a.model = some m ∨
        (dispatchErr keys a.model = none ∧ streamErr = some m)) :
    (sendCore keys autoTitle deltas streamErr idU idM input convs a).isRan = true ∧
    (sendCore keys autoTitle deltas streamErr idU idM input convs a).errorOf = some m ∧
    findConv (sendCore keys autoTitle deltas streamErr idU idM input convs a).convsOf aid
      = some (errorUpdate idM m a) := by
  have haid := findConv_some_id convs aid a ha
  subst haid
  have hfinE : findConv (errorReplace a.id idM m convs) a.id
      = some (errorUpdate idM m a) := by
    unfold errorReplace
    rw [findConv_updConv a.id (errorUpdate idM m) (fun c hc => hc), ha]
    rfl
  rcases herr with hcfg | ⟨hok, hse⟩
  · have hsc : streamChat keys (userAppend autoTitle idU input a) =
        Dispatch.configError m :=
      streamChat_of_err _ _ _ (by rw [userAppend_model]; exact hcfg)
    simp only [sendCore]
    rw [hsc]
    exact ⟨rfl, rfl, hfinE⟩
  · have hsc : streamChat keys (userAppend autoTitle idU input a) =
        (if strStartsWith "gpt-" a.model then
          Dispatch.openaiCall (openaiRequest (userAppend autoTitle idU input a))
        else Dispatch.geminiCall (geminiRequest (userAppend autoTitle idU input a))) := by
      rw [streamChat_of_ok keys _ (by rw [userAppend_model]; exact hok),
        userAppend_model]
    simp only [sendCore]
    rw [hsc, hse]
    by_cases hs : strStartsWith "gpt-" a.model
    · rw [if_pos hs]
      exact ⟨rfl, rfl, hfinE⟩
    · rw [if_neg hs]
      exact ⟨rfl, rfl, hfinE⟩

/-- Under the snapshot semantics of useLocalStorage, the final persisted
state of every normally completing turn is the last chunk write, computed
from the click-time snapshot: with no delta the placeholder write stands
(leaving a dangling pending message without the user message), with one delta
the first-chunk write replaces the last prior message, and with two or more
deltas the content of the last prior message is overwritten with the joined
deltas; in no case does the final state contain the user message. -/
theorem sendCore_success_final (keys : Keys) (autoTitle : String)
    (deltas : List String) (idU idM input : String)
    (convs : List Conversation) (aid : String) (a : Conversation)
    (ha : findConv convs aid = some a)
    (hok : dispatchErr keys a.model = none) :
    (sendCore keys autoTitle deltas none idU idM input convs a).isRan = true ∧
    (sendCore keys autoTitle deltas none idU idM input convs a).errorOf = none ∧
    (deltas = [] →
      findConv (sendCore keys autoTitle deltas none idU idM input convs a).convsOf aid
        = some (placeholderUpdate idM a)) ∧
    (∀ d : String, deltas = [d] →
      findConv (sendCore keys autoTitle deltas none idU idM input convs a).convsOf aid
        = some (firstChunkUpdate idM d a)) ∧
    (∀ (d1 d2 : String) (ds : List String), deltas = d1 :: d2 :: ds →
      findConv (sendCore keys autoTitle deltas none idU idM input convs a).convsOf aid
        = some (contentUpdate (String.join deltas) a)) := by
  have haid := findConv_some_id convs aid a ha
  subst haid
  have hW2 : findConv (updConv a.id (placeholderUpdate idM) convs) a.id
      = some (placeholderUpdate idM a) := by
    rw [findConv_updConv a.id (placeholderUpdate idM) (fun c hc => hc), ha]
    rfl
  have hW1 : ∀ full : String,
      findConv (updConv a.id (firstChunkUpdate idM full) convs) a.id
        = some (firstChunkUpdate idM full a) := by
    intro full
    rw [findConv_updConv a.id (firstChunkUpdate idM full) (fun c hc => hc), ha]
    rfl
  have hWC : ∀ full : String,
      findConv (updConv a.id (contentUpdate full) convs) a.id
        = some (contentUpdate full a) := by
    intro full
    rw [findConv_updConv a.id (contentUpdate full) (fun c hc => hc), ha]
    rfl
  have hsc : streamChat keys (userAppend autoTitle idU input a) =
      (if strStartsWith "gpt-" a.model then
        Dispatch.openaiCall (openaiRequest (userAppend autoTitle idU input a))
      else Dispatch.geminiCall (geminiRequest (userAppend autoTitle idU input a))) := by
    rw [streamChat_of_ok keys _ (by rw [userAppend_model]; exact hok),
      userAppend_model]
  simp only [sendCore]
  rw [hsc]
  by_cases hs : strStartsWith "gpt-" a.model
  all_goals
    first
      | rw [if_pos hs]
      | rw [if_neg hs]
  all_goals
    refine ⟨rfl, rfl, ?_, ?_, ?_⟩
    · intro h
      subst h
      exact hW2
    · intro d h
      subst h
      show findConv (runDeltas a.id idM convs [d] "" true
        (updConv a.id (placeholderUpdate idM) convs)).1 a.id = _
      rw [runDeltas_fst_cons a.id idM convs [] d "" true
        (updConv a.id (placeholderUpdate idM) convs)]
      simp only [List.isEmpty_nil, if_true, applyDelta]
      rw [show ("" ++ d : String) = d by simp]
      exact hW1 d
    · intro d1 d2 ds h
      subst h
      show findConv (runDeltas a.id idM convs (d1 :: d2 :: ds) "" true
        (updConv a.id (placeholderUpdate idM) convs)).1 a.id = _
      rw [runDeltas_fst_cons a.id idM convs (d2 :: ds) d1 "" true
        (updConv a.id (placeholderUpdate idM) convs)]
      simp only [List.isEmpty_cons, if_false, applyDelta]
      rw [show ("" ++ String.join (d1 :: d2 :: ds) : String)
        = String.join (d1 :: d2 :: ds) by simp]
      exact hWC (String.join (d1 :: d2 :: ds))

/-- C1: the claim states that a turn failing after the placeholder was
created leaves exactly one new user message plus one terminal error-content
model message on top of the prior history. Because useLocalStorage.setValue
(src/App.tsx lines 24-34) applies every functional updater to the click-time
storedValue snapshot, the real error write of src/App.tsx line 389 is also
computed from that snapshot: evaluated at the failing input (a conversation
with messages user q and model a, no Gemini key, input hi), the persisted
final state replaces the prior model message with the error message and the
user message is lost, differing from the state the claim requires. -/
theorem claim_C1 :
    (handleSend ⟨none, none⟩ "t" [] none "u1" "m1" "hi" false [geminiConvBusy]
        (some "c2")).convsOf =
      [{ geminiConvBusy with messages :=
          [{ id := "u0", role := Role.user, content := "q", isThinking := false },
           { id := "m1", role := Role.model,
             content := "Error: " ++ geminiMissingMsg, isThinking := false }] }] ∧
    (handleSend ⟨none, none⟩ "t" [] none "u1" "m1" "hi" false [geminiConvBusy]
        (some "c2")).convsOf ≠
      [{ geminiConvBusy with messages := geminiConvBusy.messages ++
          [mkUserMsg "u1" "hi",
           { id := "m1", role := Role.model,
             content := "Error: " ++ geminiMissingMsg, isThinking := false }] }] :=
  ⟨rfl, by decide⟩

/-- C8: the claim states that a normally completing turn ends with the model
message holding the concatenation of the received deltas, appended after the
user message. Because useLocalStorage.setValue applies every functional
updater to the click-time snapshot, each chunk write of the loop at
src/App.tsx lines 361-384 is computed from that snapshot: evaluated at the
failing input (two deltas Here and space-are on a conversation with messages
user q and model a), the persisted final state overwrites the content of the
prior model message m0 and contains neither the new user message nor the
turn's own model message m1, differing from the state the claim requires. -/
theorem claim_C8 :
    (handleSend ⟨some "k", none⟩ "t" ["Here", " are"] none "u1" "m1" "hi" false
        [geminiConvBusy] (some "c2")).convsOf =
      [{ geminiConvBusy with messages :=
          [{ id := "u0", role := Role.user, content := "q", isThinking := false },
           { id := "m0", role := Role.model, content := "Here are",
             isThinking := false }] }] ∧
    (handleSend ⟨some "k", none⟩ "t" ["Here", " are"] none "u1" "m1" "hi" false
        [geminiConvBusy] (some "c2")).convsOf ≠
      [{ geminiConvBusy with messages := geminiConvBusy.messages ++
          [mkUserMsg "u1" "hi",
           { id := "m1", role := Role.model, content := "Here are",
             isThinking := false }] }] :=
  ⟨rfl, by decide⟩

end AutoLab
